import Mathlib

/-!
Shallow embedding of the planning-API backend (`src/main.py`): a FastAPI
service exposing role-gated CRUD handlers over employees, assignments and
unavailabilities.  Each Python handler is translated to a pure Lean
function.  The external relational store is modelled as explicit lists of
rows (`DB`); JSON payload dictionaries become association lists; the HTTP
exception mechanism becomes an `Except HErr` result.  Insert statements
whose outcome depends on storage-side constraints (the assignments
uniqueness constraint) are abstracted as an oracle argument carrying the
storage layer's response.  SQL `ORDER BY` clauses are not modelled: the
properties verified here concern membership and field content of result
sets, which sorting does not affect.
-/

namespace Planning

/-- An HTTP error as raised by `HTTPException(status_code=..., detail=...)`. -/
structure HErr where
  status : Nat
  detail : String
deriving DecidableEq, Repr

/-- A JSON payload value as the handlers inspect it: the routes only ever
distinguish strings (status codes, ids, dates) and booleans (`is_pf`). -/
inductive Value where
  | s (v : String)
  | b (v : Bool)
deriving DecidableEq, Repr

/-- A request payload: a Python `Dict[str, Any]`, iterated in insertion
order, modelled as an association list. -/
abbrev Payload := List (String × Value)

/-- Python truthiness of an `Optional[str]`: `not x` is true for `None`
and for the empty string (`if not user["employee_id"]`). -/
def isBlank : Option String → Bool
  | none => true
  | some s => s = ""

/-- Python `x in ("A", "B", ...)` on a payload value: only a string value
can equal a string literal. -/
def valMem (v : Value) (l : List String) : Bool :=
  match v with
  | .s t => l.contains t
  | .b _ => false

/-- Python `payload[k] != user[k]` between a payload value and an
`Optional[str]`: equal only when both are the same string. -/
def valEqOptStr (v : Value) (o : Option String) : Bool :=
  match v, o with
  | .s t, some u => t = u
  | _, _ => false

/-- The string a payload value contributes to a text-typed SQL parameter
(`str(...)` rendering for the non-string case). -/
def asStr : Value → String
  | .s v => v
  | .b v => if v then "True" else "False"

/-- Python `bool(v)` as applied to the `is_pf` payload value. -/
def asBool : Value → Bool
  | .s v => v ≠ ""
  | .b v => v

/-- Python `str.strip()` (whitespace from both ends), written structurally
over the character list so that concrete instances reduce.  ASCII
whitespace (space, tab, CR, LF) is covered; the handlers only ever strip
name fields. -/
def pyStrip (s : String) : String :=
  ⟨((s.data.dropWhile Char.isWhitespace).reverse.dropWhile Char.isWhitespace).reverse⟩

/-- A row of `public.employees`. -/
structure Employee where
  id : String
  first_name : String
  last_name : String
  email : Option String
  phone : Option String
  is_active : Bool
deriving DecidableEq, Repr

/-- A row of `public.assignments`. -/
structure Assignment where
  id : String
  employee_id : String
  activity : String
  assign_date : String
  role : String
  shift : String
  is_pf : Bool
  status : String
  created_by : String
deriving DecidableEq, Repr

/-- A row of `public.unavailabilities`. -/
structure Unavailability where
  id : String
  employee_id : String
  type : String
  start_date : String
  end_date : String
  start_time : Option String
  end_time : Option String
  impact : String
  status : String
  requested_by : String
deriving DecidableEq, Repr

/-- The external relational store, restricted to the tables the verified
handlers touch. -/
structure DB where
  employees : List Employee
  assignments : List Assignment
  unavailabilities : List Unavailability
deriving DecidableEq, Repr

/-- The dictionary returned by `get_current_user` and injected into every
handler. -/
structure User where
  user_id : String
  email : Option String
  role : String
  employee_id : Option String
  display_name : Option String
deriving DecidableEq, Repr

/-- A row of `public.user_profiles` as selected by `get_current_user`;
`is_active` is nullable in the store, hence `Option Bool`. -/
structure Profile where
  user_id : String
  role : String
  employee_id : Option String
  display_name : Option String
  is_active : Option Bool
deriving DecidableEq, Repr

/-- The claims of a decoded token, restricted to the two the code reads
(`payload.get("sub")`, `payload.get("email")`). -/
structure Claims where
  sub : Option String
  email : Option String
deriving DecidableEq, Repr

/-! ## Identity resolver (`decode_supabase_jwt`) -/

/-- What the embedding needs to know about a presented token: whether its
header parses, its unverified `alg` tag, and whether the signature /
expiry verification of `jwt.decode` (or the JWKS key fetch) succeeds. -/
structure TokenInfo where
  headerOk : Bool
  alg : Option String
  verifyOk : Bool
deriving DecidableEq, Repr

/-- Outcome of `decode_supabase_jwt`: a decoded payload, an
`HTTPException`, or an uncaught `RuntimeError` (a server fault, not an
HTTP response). -/
inductive DecodeResult where
  | ok
  | httpError (status : Nat) (detail : String)
  | runtimeError (msg : String)
deriving DecidableEq, Repr

/-- Python f-string rendering of the `alg` header value
(`f"Unsupported JWT alg: {alg}"`). -/
def pyShowOptStr : Option String → String
  | none => "None"
  | some s => s

/-- `decode_supabase_jwt` (src/main.py:53-97).  `secret` is
`SUPABASE_JWT_SECRET`, `projectUrl` is `SUPABASE_PROJECT_URL` (already
`rstrip("/")`-ed at module load); `if not X` on either is the empty-string
test. -/
def decode_supabase_jwt (secret projectUrl : String) (t : TokenInfo) : DecodeResult :=
  if ¬ t.headerOk then .httpError 401 "Invalid token header"
  else
    match t.alg with
    | some "HS256" =>
      if secret = "" then .runtimeError "SUPABASE_JWT_SECRET missing (Render env var)"
      else if t.verifyOk then .ok
      else .httpError 401 "Invalid or expired token"
    | some "RS256" =>
      if projectUrl = "" then .runtimeError "SUPABASE_PROJECT_URL missing (Render env var)"
      else if t.verifyOk then .ok
      else .httpError 401 "Invalid or expired token"
    | a => .httpError 401 ("Unsupported JWT alg: " ++ pyShowOptStr a)

/-! ## Profile loader (`get_current_user`, from the decoded claims on) -/

/-- The tail of `get_current_user` (src/main.py:104-136): after the token
is decoded, read `sub`/`email`, look the profile up by `user_id`, reject a
missing profile and a profile whose `is_active` is exactly `False`, and
assemble the user dictionary.  `profiles` is the `public.user_profiles`
table. -/
def get_current_user (claims : Claims) (profiles : List Profile) : Except HErr User :=
  match claims.sub with
  | none => .error ⟨401, "Token missing 'sub'"⟩
  | some uid =>
    if uid = "" then .error ⟨401, "Token missing 'sub'"⟩
    else
      match profiles.find? (fun p => p.user_id == uid) with
      | none => .error ⟨403, "No profile found. Create user_profiles row for this user."⟩
      | some p =>
        if p.is_active = some false then .error ⟨403, "User profile disabled"⟩
        else .ok { user_id := p.user_id, email := claims.email, role := p.role,
                   employee_id := p.employee_id, display_name := p.display_name }

/-! ## Role gate (`require_roles`) -/

/-- `require_roles(*allowed)` (src/main.py:139-144): pass the user through
when the role is in the allow list, else 403. -/
def require_roles (allowed : List String) (u : User) : Except HErr User :=
  if allowed.contains u.role then .ok u
  else .error ⟨403, "Forbidden for role: " ++ u.role⟩

/-! ## Employees -/

/-- `list_employees` (src/main.py:166-187).  CHEF_CHANTIER and RESPONSABLE
see every row with `is_active=true`; any other role (SALARIE) gets its
own linked row by primary key — with no active filter — or an empty list
when unlinked.  `fetchone` on a primary-key lookup is the first matching
row.  The SQL `ORDER BY` is not modelled. -/
def list_employees (db : DB) (u : User) : List Employee :=
  if u.role = "CHEF_CHANTIER" ∨ u.role = "RESPONSABLE" then
    db.employees.filter (fun e => e.is_active)
  else
    match u.employee_id with
    | none => []
    | some eid =>
      if eid = "" then []
      else
        match (db.employees.filter (fun e => e.id == eid)).head? with
        | some row => [row]
        | none => []

/-- `create_employee` (src/main.py:190-211), gated by
`require_roles("RESPONSABLE")`.  The required loop rejects a key that is
absent **or** whose string conversion strips to empty, with the same
`Missing field` message; the insert stores the stripped names, the
optional `email`/`phone` via `payload.get`, and `is_active=true`.
Payload values are modelled as strings (for a string `v`, `str(v)` is `v`
and `.strip()` is `pyStrip`); `newId` is the id the store generates
for the `returning id` clause. -/
def create_employee (db : DB) (u : User) (payload : List (String × String))
    (newId : String) : Except HErr (String × DB) :=
  match require_roles ["RESPONSABLE"] u with
  | .error e => .error e
  | .ok _ =>
    match payload.lookup "first_name" with
    | none => .error ⟨400, "Missing field: first_name"⟩
    | some fn =>
      if pyStrip fn = "" then .error ⟨400, "Missing field: first_name"⟩
      else
        match payload.lookup "last_name" with
        | none => .error ⟨400, "Missing field: last_name"⟩
        | some ln =>
          if pyStrip ln = "" then .error ⟨400, "Missing field: last_name"⟩
          else
            .ok (newId,
              { db with employees := db.employees ++
                  [{ id := newId, first_name := pyStrip fn, last_name := pyStrip ln,
                     email := payload.lookup "email", phone := payload.lookup "phone",
                     is_active := true }] })

/-! ## Assignments -/

/-- A row of the `list_assignments` select: assignment fields joined with
the employee's name. -/
structure AssignmentRow where
  id : String
  employee_id : String
  first_name : String
  last_name : String
  activity : String
  assign_date : String
  role : String
  shift : String
  is_pf : Bool
  status : String
deriving DecidableEq, Repr

/-- Python truthiness of an optional string query parameter
(`if activity:`): present and non-empty. -/
def qTruthy : Option String → Bool
  | none => false
  | some s => s ≠ ""

/-- The `where` conjuncts of `list_assignments` built from the query
parameters (src/main.py:227-238): activity equality and the inclusive
date-range bounds, each added only when its parameter is truthy. -/
def assignmentFilter (activity dateFrom dateTo : Option String) (a : Assignment) : Bool :=
  (if qTruthy activity then a.activity == activity.getD "" else true) &&
  (if qTruthy dateFrom then decide (dateFrom.getD "" ≤ a.assign_date) else true) &&
  (if qTruthy dateTo then decide (a.assign_date ≤ dateTo.getD "") else true)

/-- The `join public.employees e on e.id = a.employee_id` of the
assignments select: one output row per matching employee row. -/
def joinAssignments (db : DB) (as_ : List Assignment) : List AssignmentRow :=
  as_.flatMap (fun a =>
    (db.employees.filter (fun e => e.id == a.employee_id)).map (fun e =>
      { id := a.id, employee_id := a.employee_id, first_name := e.first_name,
        last_name := e.last_name, activity := a.activity, assign_date := a.assign_date,
        role := a.role, shift := a.shift, is_pf := a.is_pf, status := a.status }))

/-- `list_assignments` (src/main.py:220-268).  SALARIE with no linked
employee id returns `[]` before any query; SALARIE otherwise gets the
extra `a.employee_id = own` conjunct.  `ORDER BY` is not modelled. -/
def list_assignments (db : DB) (activity dateFrom dateTo : Option String)
    (u : User) : List AssignmentRow :=
  if u.role = "SALARIE" then
    match u.employee_id with
    | none => []
    | some eid =>
      if eid = "" then []
      else
        joinAssignments db (db.assignments.filter (fun a =>
          assignmentFilter activity dateFrom dateTo a && a.employee_id == eid))
  else
    joinAssignments db (db.assignments.filter (assignmentFilter activity dateFrom dateTo))

/-- `create_assignment` (src/main.py:271-305), gated by
`require_roles("CHEF_CHANTIER", "RESPONSABLE")`.  Required keys are
checked for presence only, in list order; a CHEF_CHANTIER whose proposed
status is outside BROUILLON/SOUMIS gets 403; then exactly one insert is
attempted inside `try/except` — its outcome (generated id, or the storage
error's message, e.g. the one-per-slot uniqueness violation) is the
oracle `store`, and a storage error is re-raised as a 400 wrapping the
message. -/
def create_assignment (u : User) (payload : Payload)
    (store : Except String String) : Except HErr String :=
  match require_roles ["CHEF_CHANTIER", "RESPONSABLE"] u with
  | .error e => .error e
  | .ok _ =>
    match ["employee_id", "activity", "assign_date", "role", "shift", "status"].find?
        (fun k => (payload.lookup k).isNone) with
    | some k => .error ⟨400, "Missing field: " ++ k⟩
    | none =>
      if u.role = "CHEF_CHANTIER" &&
          !(valMem ((payload.lookup "status").getD (.s "")) ["BROUILLON", "SOUMIS"]) then
        .error ⟨403, "Chef can only create BROUILLON/SOUMIS assignments"⟩
      else
        match store with
        | .error e => .error ⟨400, "Insert failed: " ++ e⟩
        | .ok newId => .ok newId

/-- The field allow-list of `update_assignment`
(src/main.py:325). -/
def allowedFields : List String := ["activity", "assign_date", "role", "shift", "is_pf", "status"]

/-- One iteration of the `update_assignment` field loop: a recognized key
sets the corresponding column, anything else is `continue`d past. -/
def applyField (a : Assignment) (k : String) (v : Value) : Assignment :=
  if k = "activity" then { a with activity := asStr v }
  else if k = "assign_date" then { a with assign_date := asStr v }
  else if k = "role" then { a with role := asStr v }
  else if k = "shift" then { a with shift := asStr v }
  else if k = "is_pf" then { a with is_pf := asBool v }
  else if k = "status" then { a with status := asStr v }
  else a

/-- The accumulated `set` clauses of `update_assignment` applied to a row,
in payload iteration order. -/
def applyFields (sets : Payload) (a : Assignment) : Assignment :=
  sets.foldl (fun acc kv => applyField acc kv.1 kv.2) a

/-- The response of a successful `update_assignment`:
`{"ok": True, "updated": n}`. -/
structure UpdateResp where
  ok : Bool
  updated : Nat
deriving DecidableEq, Repr

/-- `update_assignment` (src/main.py:308-350), gated by
`require_roles("CHEF_CHANTIER", "RESPONSABLE")`.  Fetch the stored
status by id (404 when absent); a CHEF_CHANTIER is blocked when the
stored status is outside BROUILLON/SOUMIS, and blocked from proposing
VALIDE/REFUSE; then the payload is filtered to the allow-list, an empty
filter returns `updated: 0` with no write, and otherwise the row(s) with
the given id are updated and `rowcount` reported. -/
def update_assignment (db : DB) (u : User) (aid : String) (payload : Payload) :
    Except HErr (UpdateResp × DB) :=
  match require_roles ["CHEF_CHANTIER", "RESPONSABLE"] u with
  | .error e => .error e
  | .ok _ =>
    match db.assignments.find? (fun a => a.id == aid) with
    | none => .error ⟨404, "Assignment not found"⟩
    | some row =>
      if u.role = "CHEF_CHANTIER" && !(row.status == "BROUILLON" || row.status == "SOUMIS") then
        .error ⟨403, "Chef cannot edit after validation/refusal"⟩
      else if u.role = "CHEF_CHANTIER" &&
          (match payload.lookup "status" with
           | some v => valMem v ["VALIDE", "REFUSE"]
           | none => false) then
        .error ⟨403, "Chef cannot validate/refuse"⟩
      else
        let sets := payload.filter (fun kv => allowedFields.contains kv.1)
        if sets.isEmpty then .ok (⟨true, 0⟩, db)
        else
          .ok (⟨true, (db.assignments.filter (fun a => a.id == aid)).length⟩,
            { db with assignments := db.assignments.map (fun a =>
                if a.id == aid then applyFields sets a else a) })

/-! ## Unavailabilities -/

/-- A row of the `list_unavail` select: unavailability fields joined with
the employee's name. -/
structure UnavailRow where
  id : String
  employee_id : String
  first_name : String
  last_name : String
  type : String
  impact : String
  start_date : String
  end_date : String
  start_time : Option String
  end_time : Option String
  status : String
deriving DecidableEq, Repr

/-- The `where` conjuncts of `list_unavail` built from the query
parameters (src/main.py:365-370). -/
def unavailFilter (dateFrom dateTo : Option String) (v : Unavailability) : Bool :=
  (if qTruthy dateFrom then decide (dateFrom.getD "" ≤ v.start_date) else true) &&
  (if qTruthy dateTo then decide (v.end_date ≤ dateTo.getD "") else true)

/-- The `join public.employees` of the unavailabilities select. -/
def joinUnavail (db : DB) (vs : List Unavailability) : List UnavailRow :=
  vs.flatMap (fun v =>
    (db.employees.filter (fun e => e.id == v.employee_id)).map (fun e =>
      { id := v.id, employee_id := v.employee_id, first_name := e.first_name,
        last_name := e.last_name, type := v.type, impact := v.impact,
        start_date := v.start_date, end_date := v.end_date,
        start_time := v.start_time, end_time := v.end_time, status := v.status }))

/-- `list_unavail` (src/main.py:359-394).  Same shape as
`list_assignments`: SALARIE unlinked returns `[]`, SALARIE linked gets
the ownership conjunct, other roles see everything matching the date
filters. -/
def list_unavail (db : DB) (dateFrom dateTo : Option String) (u : User) : List UnavailRow :=
  if u.role = "SALARIE" then
    match u.employee_id with
    | none => []
    | some eid =>
      if eid = "" then []
      else
        joinUnavail db (db.unavailabilities.filter (fun v =>
          unavailFilter dateFrom dateTo v && v.employee_id == eid))
  else
    joinUnavail db (db.unavailabilities.filter (unavailFilter dateFrom dateTo))

/-- The row the `create_unavail` insert statement writes
(src/main.py:415-432): payload fields, the two optional times via
`payload.get`, and `requested_by` set to the caller. -/
def insertedUnavail (u : User) (payload : Payload) (newId : String) : Unavailability :=
  { id := newId,
    employee_id := asStr ((payload.lookup "employee_id").getD (.s "")),
    type := asStr ((payload.lookup "type").getD (.s "")),
    start_date := asStr ((payload.lookup "start_date").getD (.s "")),
    end_date := asStr ((payload.lookup "end_date").getD (.s "")),
    start_time := (payload.lookup "start_time").map asStr,
    end_time := (payload.lookup "end_time").map asStr,
    impact := asStr ((payload.lookup "impact").getD (.s "")),
    status := asStr ((payload.lookup "status").getD (.s "")),
    requested_by := u.user_id }

/-- `create_unavail` (src/main.py:397-435), gated only by
`get_current_user` (any role reaches it).  Required keys are checked for
presence in list order; a SALARIE must target their own linked employee
id (Python `not user["employee_id"] or payload["employee_id"] !=
user["employee_id"]`) with a BROUILLON/SOUMIS status; a CHEF_CHANTIER is
rejected outright; every other role proceeds to the insert, which has no
`try/except` and is modelled as appending the row (`newId` is the
store-generated id). -/
def create_unavail (db : DB) (u : User) (payload : Payload) (newId : String) :
    Except HErr (String × DB) :=
  match ["employee_id", "type", "start_date", "end_date", "impact", "status"].find?
      (fun k => (payload.lookup k).isNone) with
  | some k => .error ⟨400, "Missing field: " ++ k⟩
  | none =>
    if u.role = "SALARIE" &&
        (isBlank u.employee_id ||
         !(valEqOptStr ((payload.lookup "employee_id").getD (.s "")) u.employee_id)) then
      .error ⟨403, "SALARIE can only create for self"⟩
    else if u.role = "SALARIE" &&
        !(valMem ((payload.lookup "status").getD (.s "")) ["BROUILLON", "SOUMIS"]) then
      .error ⟨403, "SALARIE can only create BROUILLON/SOUMIS"⟩
    else if u.role = "CHEF_CHANTIER" then
      .error ⟨403, "CHEF_CHANTIER cannot create unavailabilities (MVP)"⟩
    else
      .ok (newId, { db with unavailabilities :=
        db.unavailabilities ++ [insertedUnavail u payload newId] })

/-! ## Concrete fixtures used by witnesses and counterexamples -/

/-- A CHEF_CHANTIER user (no linked employee). -/
def uChef : User := ⟨"u-chef", none, "CHEF_CHANTIER", none, none⟩

/-- A SALARIE user linked to employee `e1`. -/
def uSal : User := ⟨"u-sal", none, "SALARIE", some "e1", none⟩

/-- A RESPONSABLE user. -/
def uResp : User := ⟨"u-resp", none, "RESPONSABLE", none, none⟩

/-- An employee row with `is_active = false`. -/
def empInactive : Employee := ⟨"e1", "Ana", "Blanc", none, none, false⟩

/-- An employee row with `is_active = true`. -/
def empActive : Employee := ⟨"e2", "Carl", "Druon", none, none, true⟩

/-- An assignment frozen at status VALIDE. -/
def asgValide : Assignment := ⟨"a1", "e1", "ME1", "2024-01-01", "R1", "S1", false, "VALIDE", "u-resp"⟩

/-- An assignment still at status BROUILLON. -/
def asgBrouillon : Assignment := ⟨"a2", "e2", "ME1", "2024-01-02", "R1", "S1", false, "BROUILLON", "u-resp"⟩

/-- A small store holding the fixtures above. -/
def dbSample : DB := ⟨[empInactive, empActive], [asgValide, asgBrouillon], []⟩

/-- A SALARIE user with no linked employee id. -/
def uSalNoEmp : User := ⟨"u-sal0", none, "SALARIE", none, none⟩

/-- `dbSample` after `a1`'s activity is updated to `"X"`. -/
def dbSampleUpd : DB :=
  ⟨[empInactive, empActive], [{ asgValide with activity := "X" }, asgBrouillon], []⟩

/-! ## Theorems -/

/-- When every required key is present in the payload, the required-field
scan finds nothing missing. -/
theorem required_scan_none {β : Type} (payload : List (String × β)) (ks : List String)
    (h : ∀ k ∈ ks, (payload.lookup k).isSome = true) :
    ks.find? (fun k => (payload.lookup k).isNone) = none := by
  rw [List.find?_eq_none]
  intro k hk
  have hks := h k hk
  cases hlk : payload.lookup k with
  | none => rw [hlk] at hks; cases hks
  | some v => simp

/-- C1: for every Assignment update attempt by a CHEF_CHANTIER user, if
the currently stored status of the assignment is VALIDE or REFUSE the
update is rejected with 403 regardless of payload content, and even when
the stored status is BROUILLON or SOUMIS the update is rejected with 403
whenever the payload proposes a status of VALIDE or REFUSE. -/
theorem chef_update_gate (db : DB) (u : User) (aid : String) (payload : Payload)
    (a : Assignment)
    (hrole : u.role = "CHEF_CHANTIER")
    (hfind : db.assignments.find? (fun x => x.id == aid) = some a) :
    ((a.status = "VALIDE" ∨ a.status = "REFUSE") →
      update_assignment db u aid payload =
        .error ⟨403, "Chef cannot edit after validation/refusal"⟩)
    ∧ (∀ v, (a.status = "BROUILLON" ∨ a.status = "SOUMIS") →
        payload.lookup "status" = some v → valMem v ["VALIDE", "REFUSE"] = true →
        update_assignment db u aid payload =
          .error ⟨403, "Chef cannot validate/refuse"⟩) := by
  constructor
  · intro hst
    rcases hst with h | h <;>
      simp [update_assignment, require_roles, hrole, hfind, h]
  · intro v hst hlook hmem
    rcases hst with h | h <;>
      simp [update_assignment, require_roles, hrole, hfind, h, hlook, hmem]

/-- Witness for C1: the two gates fire on the sample store. -/
theorem chef_update_gate_witness :
    update_assignment dbSample uChef "a1" [("activity", Value.s "X")] =
      .error ⟨403, "Chef cannot edit after validation/refusal"⟩
    ∧ update_assignment dbSample uChef "a2" [("status", Value.s "VALIDE")] =
      .error ⟨403, "Chef cannot validate/refuse"⟩ :=
  ⟨(chef_update_gate dbSample uChef "a1" [("activity", Value.s "X")] asgValide rfl rfl).1
      (Or.inl rfl),
   (chef_update_gate dbSample uChef "a2" [("status", Value.s "VALIDE")] asgBrouillon rfl rfl).2
      (Value.s "VALIDE") (Or.inl rfl) rfl rfl⟩

/-- C7: when the token's algorithm is supported but the required
configuration value is absent (shared secret for HS256, project URL for
RS256), `decode_supabase_jwt` raises an uncaught `RuntimeError` — a
server fault — and never an HTTP 401/403 response. -/
theorem decode_missing_config_server_fault (secret projectUrl : String) (t : TokenInfo)
    (hok : t.headerOk = true) :
    (t.alg = some "HS256" → secret = "" →
      decode_supabase_jwt secret projectUrl t =
        .runtimeError "SUPABASE_JWT_SECRET missing (Render env var)"
      ∧ ∀ c d, decode_supabase_jwt secret projectUrl t ≠ .httpError c d)
    ∧ (t.alg = some "RS256" → projectUrl = "" →
      decode_supabase_jwt secret projectUrl t =
        .runtimeError "SUPABASE_PROJECT_URL missing (Render env var)"
      ∧ ∀ c d, decode_supabase_jwt secret projectUrl t ≠ .httpError c d) := by
  constructor
  · intro halg hsec
    have h : decode_supabase_jwt secret projectUrl t =
        .runtimeError "SUPABASE_JWT_SECRET missing (Render env var)" := by
      simp [decode_supabase_jwt, hok, halg, hsec]
    exact ⟨h, by intro c d hcontra; rw [h] at hcontra; exact DecodeResult.noConfusion hcontra⟩
  · intro halg hurl
    have h : decode_supabase_jwt secret projectUrl t =
        .runtimeError "SUPABASE_PROJECT_URL missing (Render env var)" := by
      simp [decode_supabase_jwt, hok, halg, hurl]
    exact ⟨h, by intro c d hcontra; rw [h] at hcontra; exact DecodeResult.noConfusion hcontra⟩

/-- Witness for C7: a parse-clean HS256 token with the secret unset, and a
parse-clean RS256 token with the project URL unset. -/
theorem decode_missing_config_server_fault_witness :
    decode_supabase_jwt "" "https://proj.example" ⟨true, some "HS256", true⟩ =
      .runtimeError "SUPABASE_JWT_SECRET missing (Render env var)"
    ∧ decode_supabase_jwt "s3cr3t" "" ⟨true, some "RS256", true⟩ =
      .runtimeError "SUPABASE_PROJECT_URL missing (Render env var)" :=
  ⟨((decode_missing_config_server_fault "" "https://proj.example"
      ⟨true, some "HS256", true⟩ rfl).1 rfl rfl).1,
   ((decode_missing_config_server_fault "s3cr3t" ""
      ⟨true, some "RS256", true⟩ rfl).2 rfl rfl).1⟩

/-- C10: once the profile row is found, the disabled check of
`get_current_user` rejects with 403 exactly when `is_active` is the
stored boolean `false`; a NULL/absent flag (and `true`) lets the request
proceed to the assembled user. -/
theorem profile_disabled_only_on_false (claims : Claims) (profiles : List Profile)
    (uid : String) (p : Profile)
    (hsub : claims.sub = some uid) (hne : uid ≠ "")
    (hfind : profiles.find? (fun q => q.user_id == uid) = some p) :
    (p.is_active = some false →
      get_current_user claims profiles = .error ⟨403, "User profile disabled"⟩)
    ∧ (p.is_active ≠ some false →
      get_current_user claims profiles =
        .ok { user_id := p.user_id, email := claims.email, role := p.role,
              employee_id := p.employee_id, display_name := p.display_name }) := by
  constructor
  · intro hfalse
    simp [get_current_user, hsub, hne, hfind, hfalse]
  · intro hnot
    simp [get_current_user, hsub, hne, hfind, hnot]

/-- Witness for C10: a profile with NULL `is_active` proceeds, one with
`false` is rejected. -/
theorem profile_disabled_only_on_false_witness :
    get_current_user ⟨some "u9", none⟩ [⟨"u9", "SALARIE", none, none, none⟩] =
      .ok { user_id := "u9", email := none, role := "SALARIE",
            employee_id := none, display_name := none }
    ∧ get_current_user ⟨some "u8", none⟩ [⟨"u8", "SALARIE", none, none, some false⟩] =
      .error ⟨403, "User profile disabled"⟩ :=
  ⟨(profile_disabled_only_on_false ⟨some "u9", none⟩ [⟨"u9", "SALARIE", none, none, none⟩]
      "u9" ⟨"u9", "SALARIE", none, none, none⟩ rfl (by decide) rfl).2 (by decide),
   (profile_disabled_only_on_false ⟨some "u8", none⟩ [⟨"u8", "SALARIE", none, none, some false⟩]
      "u8" ⟨"u8", "SALARIE", none, none, some false⟩ rfl (by decide) rfl).1 rfl⟩

/-- C8: the employees list filters on the active flag asymmetrically: a
CHEF_CHANTIER or RESPONSABLE caller only ever receives rows with
`is_active = true`, while a SALARIE caller receives their own linked row
(the first row with their employee id) even when it is inactive. -/
theorem employees_active_filter_asymmetric (db : DB) (u : User) (eid : String) (e : Employee) :
    ((u.role = "CHEF_CHANTIER" ∨ u.role = "RESPONSABLE") →
      ∀ r ∈ list_employees db u, r.is_active = true)
    ∧ (u.role = "SALARIE" → u.employee_id = some eid → eid ≠ "" →
      (db.employees.filter (fun x => x.id == eid)).head? = some e →
      e.is_active = false →
      list_employees db u = [e]) := by
  constructor
  · intro hrole r hr
    have : list_employees db u = db.employees.filter (fun x => x.is_active) := by
      simp [list_employees, hrole]
    rw [this] at hr
    exact (List.mem_filter.mp hr).2
  · intro hrole heid hne hhead _
    have hno : ¬ (u.role = "CHEF_CHANTIER" ∨ u.role = "RESPONSABLE") := by
      rw [hrole]; decide
    simp [list_employees, hno, heid, isBlank, hne, hhead]

/-- Witness for C8: on the sample store the privileged listing yields only
active rows (so the active one is provably active via the theorem), while
the SALARIE linked to the inactive `e1` still receives that row. -/
theorem employees_active_filter_asymmetric_witness :
    empActive.is_active = true ∧ list_employees dbSample uSal = [empInactive] :=
  ⟨(employees_active_filter_asymmetric dbSample uChef "e1" empInactive).1
      (Or.inl rfl) empActive (by decide),
   (employees_active_filter_asymmetric dbSample uSal "e1" empInactive).2
      rfl rfl (by decide) rfl rfl⟩

/-- C9: in `create_employee` under RESPONSABLE, a name field that is
present but strips to the empty string is rejected with the very same
`Missing field` 400 as an absent key, and a successful create stores the
whitespace-stripped first and last names (with `is_active = true`). -/
theorem create_employee_strip_validation (db : DB) (u : User)
    (payload : List (String × String)) (newId : String)
    (hrole : u.role = "RESPONSABLE") :
    ((payload.lookup "first_name" = none →
        create_employee db u payload newId = .error ⟨400, "Missing field: first_name"⟩)
     ∧ (∀ s, payload.lookup "first_name" = some s → pyStrip s = "" →
        create_employee db u payload newId = .error ⟨400, "Missing field: first_name"⟩))
    ∧ (∀ f, payload.lookup "first_name" = some f → pyStrip f ≠ "" →
      ((payload.lookup "last_name" = none →
          create_employee db u payload newId = .error ⟨400, "Missing field: last_name"⟩)
       ∧ (∀ s, payload.lookup "last_name" = some s → pyStrip s = "" →
          create_employee db u payload newId = .error ⟨400, "Missing field: last_name"⟩)
       ∧ (∀ l, payload.lookup "last_name" = some l → pyStrip l ≠ "" →
          create_employee db u payload newId = .ok (newId,
            { db with employees := db.employees ++
                [{ id := newId, first_name := pyStrip f, last_name := pyStrip l,
                   email := payload.lookup "email", phone := payload.lookup "phone",
                   is_active := true }] })))) := by
  refine ⟨⟨?_, ?_⟩, ?_⟩
  · intro hnone
    simp [create_employee, require_roles, hrole, hnone]
  · intro s hs hblank
    simp [create_employee, require_roles, hrole, hs, hblank]
  · intro f hf hfne
    refine ⟨?_, ?_, ?_⟩
    · intro hnone
      simp [create_employee, require_roles, hrole, hf, hfne, hnone]
    · intro s hs hblank
      simp [create_employee, require_roles, hrole, hf, hfne, hs, hblank]
    · intro l hl hlne
      simp [create_employee, require_roles, hrole, hf, hfne, hl, hlne]

/-- Witness for C9: a whitespace-only first name is rejected exactly like
a missing one, and `" Jo "`/`" Do "` are stored stripped. -/
theorem create_employee_strip_validation_witness :
    create_employee dbSample uResp [("first_name", "   "), ("last_name", "B")] "n1" =
      .error ⟨400, "Missing field: first_name"⟩
    ∧ create_employee dbSample uResp [] "n1" =
      .error ⟨400, "Missing field: first_name"⟩
    ∧ create_employee dbSample uResp [("first_name", " Jo "), ("last_name", " Do ")] "n1" =
      .ok ("n1", { dbSample with employees := dbSample.employees ++
          [{ id := "n1", first_name := "Jo", last_name := "Do",
             email := none, phone := none, is_active := true }] }) :=
  ⟨(create_employee_strip_validation dbSample uResp
      [("first_name", "   "), ("last_name", "B")] "n1" rfl).1.2 "   " rfl (by decide),
   (create_employee_strip_validation dbSample uResp [] "n1" rfl).1.1 rfl,
   (create_employee_strip_validation dbSample uResp
      [("first_name", " Jo "), ("last_name", " Do ")] "n1" rfl).2 " Jo " rfl (by decide)
      |>.2.2 " Do " rfl (by decide)⟩

/-- C6: when the single insert attempted by `create_assignment` fails at
the storage layer (e.g. the one-per-slot uniqueness constraint), the
handler reports 400 with `Insert failed:` wrapping the storage message —
not a generic 500 server error. -/
theorem create_assignment_insert_failure_wrapped (u : User) (payload : Payload) (m : String)
    (hrole : u.role = "CHEF_CHANTIER" ∨ u.role = "RESPONSABLE")
    (hreq : ∀ k ∈ ["employee_id", "activity", "assign_date", "role", "shift", "status"],
      (payload.lookup k).isSome = true)
    (hchef : u.role = "CHEF_CHANTIER" →
      valMem ((payload.lookup "status").getD (.s "")) ["BROUILLON", "SOUMIS"] = true) :
    create_assignment u payload (.error m) = .error ⟨400, "Insert failed: " ++ m⟩
    ∧ ∀ d, create_assignment u payload (.error m) ≠ .error ⟨500, d⟩ := by
  have hfind := required_scan_none payload
    ["employee_id", "activity", "assign_date", "role", "shift", "status"] hreq
  have hmain : create_assignment u payload (.error m) =
      .error ⟨400, "Insert failed: " ++ m⟩ := by
    rcases hrole with h | h
    · simp [create_assignment, require_roles, h, hfind, hchef h]
    · have : ¬ u.role = "CHEF_CHANTIER" := by rw [h]; decide
      simp [create_assignment, require_roles, h, hfind, this]
  refine ⟨hmain, ?_⟩
  intro d hcontra
  rw [hmain] at hcontra
  simp [HErr.mk.injEq] at hcontra

/-- Witness for C6: a CHEF_CHANTIER creating a SOUMIS assignment whose
insert violates the slot uniqueness constraint gets the wrapped 400. -/
theorem create_assignment_insert_failure_wrapped_witness :
    create_assignment uChef
      [("employee_id", Value.s "e1"), ("activity", Value.s "ME1"),
       ("assign_date", Value.s "2024-01-01"), ("role", Value.s "R1"),
       ("shift", Value.s "S1"), ("status", Value.s "SOUMIS")]
      (.error "duplicate key value violates unique constraint") =
    .error ⟨400, "Insert failed: duplicate key value violates unique constraint"⟩ :=
  (create_assignment_insert_failure_wrapped uChef
    [("employee_id", Value.s "e1"), ("activity", Value.s "ME1"),
     ("assign_date", Value.s "2024-01-01"), ("role", Value.s "R1"),
     ("shift", Value.s "S1"), ("status", Value.s "SOUMIS")]
    "duplicate key value violates unique constraint"
    (Or.inl rfl) (by decide) (fun _ => by decide)).1

/-- Counterexample to C4 as stated: a CHEF_CHANTIER create whose payload
proposes status VALIDE but omits another required field is rejected with
400 `Missing field`, not with the claimed 403 Forbidden — the
required-field scan runs before the status policy check. -/
theorem chef_create_status_counterexample :
    create_assignment uChef [("status", Value.s "VALIDE")] (.ok "n1") =
      .error ⟨400, "Missing field: employee_id"⟩ := by
  rfl

/-- C4 (amended): for an Assignment create request whose payload contains
all required fields, a CHEF_CHANTIER proposing a status outside
BROUILLON/SOUMIS is rejected with 403 Forbidden, and a RESPONSABLE may
create with any status — the insert is attempted and its generated id
returned on success.  (A payload missing a required field is rejected
with 400 `Missing field` for both roles, before the status policy.) -/
theorem chef_create_status_gate (u : User) (payload : Payload)
    (store : Except String String) (st : Value)
    (hreq : ∀ k ∈ ["employee_id", "activity", "assign_date", "role", "shift", "status"],
      (payload.lookup k).isSome = true)
    (hst : payload.lookup "status" = some st) :
    (u.role = "CHEF_CHANTIER" → valMem st ["BROUILLON", "SOUMIS"] = false →
      create_assignment u payload store =
        .error ⟨403, "Chef can only create BROUILLON/SOUMIS assignments"⟩)
    ∧ (u.role = "RESPONSABLE" → ∀ nid, store = .ok nid →
      create_assignment u payload store = .ok nid) := by
  have hfind := required_scan_none payload
    ["employee_id", "activity", "assign_date", "role", "shift", "status"] hreq
  constructor
  · intro hrole hnot
    simp [create_assignment, require_roles, hrole, hfind, hst, hnot]
  · intro hrole nid hstore
    have hnc : ¬ u.role = "CHEF_CHANTIER" := by rw [hrole]; decide
    simp [create_assignment, require_roles, hrole, hfind, hnc, hstore]

/-- Witness for C4 (amended): a complete VALIDE payload is 403 for the
chef and succeeds for the RESPONSABLE. -/
theorem chef_create_status_gate_witness :
    create_assignment uChef
      [("employee_id", Value.s "e1"), ("activity", Value.s "ME1"),
       ("assign_date", Value.s "2024-01-01"), ("role", Value.s "R1"),
       ("shift", Value.s "S1"), ("status", Value.s "VALIDE")] (.ok "n1") =
      .error ⟨403, "Chef can only create BROUILLON/SOUMIS assignments"⟩
    ∧ create_assignment uResp
      [("employee_id", Value.s "e1"), ("activity", Value.s "ME1"),
       ("assign_date", Value.s "2024-01-01"), ("role", Value.s "R1"),
       ("shift", Value.s "S1"), ("status", Value.s "VALIDE")] (.ok "n1") =
      .ok "n1" :=
  ⟨(chef_create_status_gate uChef
      [("employee_id", Value.s "e1"), ("activity", Value.s "ME1"),
       ("assign_date", Value.s "2024-01-01"), ("role", Value.s "R1"),
       ("shift", Value.s "S1"), ("status", Value.s "VALIDE")] (.ok "n1")
      (Value.s "VALIDE") (by decide) rfl).1 rfl rfl,
   (chef_create_status_gate uResp
      [("employee_id", Value.s "e1"), ("activity", Value.s "ME1"),
       ("assign_date", Value.s "2024-01-01"), ("role", Value.s "R1"),
       ("shift", Value.s "S1"), ("status", Value.s "VALIDE")] (.ok "n1")
      (Value.s "VALIDE") (by decide) rfl).2 rfl "n1" rfl⟩

/-- Counterexample to C3 as stated: a CHEF_CHANTIER unavailability create
with an incomplete payload is rejected with 400 `Missing field`, not with
the claimed always-403 Forbidden — the required-field scan runs before
the role block. -/
theorem unavail_create_policy_counterexample :
    create_unavail dbSample uChef [] "n1" = .error ⟨400, "Missing field: employee_id"⟩ := by
  rfl

/-- C3 (amended): for an Unavailability create request whose payload
contains all required fields: a SALARIE is allowed only when the payload
employee id equals their own linked id and the proposed status is
BROUILLON or SOUMIS, each violation drawing its 403; a CHEF_CHANTIER is
rejected with 403; a RESPONSABLE is allowed unrestricted — the row is
inserted as given, including for another employee.  (A payload missing a
required field is rejected with 400 `Missing field` for every role.) -/
theorem unavail_create_policy (db : DB) (u : User) (payload : Payload) (newId : String)
    (hreq : ∀ k ∈ ["employee_id", "type", "start_date", "end_date", "impact", "status"],
      (payload.lookup k).isSome = true) :
    (u.role = "CHEF_CHANTIER" →
      create_unavail db u payload newId =
        .error ⟨403, "CHEF_CHANTIER cannot create unavailabilities (MVP)"⟩)
    ∧ (u.role = "SALARIE" →
      ((isBlank u.employee_id = true ∨
          valEqOptStr ((payload.lookup "employee_id").getD (.s "")) u.employee_id = false →
        create_unavail db u payload newId = .error ⟨403, "SALARIE can only create for self"⟩)
       ∧ (isBlank u.employee_id = false →
          valEqOptStr ((payload.lookup "employee_id").getD (.s "")) u.employee_id = true →
          valMem ((payload.lookup "status").getD (.s "")) ["BROUILLON", "SOUMIS"] = false →
          create_unavail db u payload newId =
            .error ⟨403, "SALARIE can only create BROUILLON/SOUMIS"⟩)
       ∧ (isBlank u.employee_id = false →
          valEqOptStr ((payload.lookup "employee_id").getD (.s "")) u.employee_id = true →
          valMem ((payload.lookup "status").getD (.s "")) ["BROUILLON", "SOUMIS"] = true →
          create_unavail db u payload newId = .ok (newId, { db with unavailabilities :=
            db.unavailabilities ++ [insertedUnavail u payload newId] }))))
    ∧ (u.role = "RESPONSABLE" →
      create_unavail db u payload newId = .ok (newId, { db with unavailabilities :=
        db.unavailabilities ++ [insertedUnavail u payload newId] })) := by
  have hfind := required_scan_none payload
    ["employee_id", "type", "start_date", "end_date", "impact", "status"] hreq
  refine ⟨?_, ?_, ?_⟩
  · intro hrole
    have hns : ¬ u.role = "SALARIE" := by rw [hrole]; decide
    simp [create_unavail, hfind, hrole, hns]
  · intro hrole
    refine ⟨?_, ?_, ?_⟩
    · intro hviol
      rcases hviol with h | h <;> simp [create_unavail, hfind, hrole, h]
    · intro hlinked hown hnot
      simp [create_unavail, hfind, hrole, hlinked, hown, hnot]
    · intro hlinked hown hstat
      have hnc : ¬ u.role = "CHEF_CHANTIER" := by rw [hrole]; decide
      simp [create_unavail, hfind, hrole, hlinked, hown, hstat, hnc]
  · intro hrole
    have hns : ¬ u.role = "SALARIE" := by rw [hrole]; decide
    have hnc : ¬ u.role = "CHEF_CHANTIER" := by rw [hrole]; decide
    simp [create_unavail, hfind, hns, hnc]

/-- Witness for C3 (amended): complete payloads — the chef is blocked, the
SALARIE creating VALIDE for themselves is blocked, and the RESPONSABLE
creating a BROUILLON for another employee succeeds. -/
theorem unavail_create_policy_witness :
    create_unavail dbSample uChef
      [("employee_id", Value.s "e1"), ("type", Value.s "CONGE"),
       ("start_date", Value.s "2024-02-01"), ("end_date", Value.s "2024-02-02"),
       ("impact", Value.s "TOTAL"), ("status", Value.s "BROUILLON")] "n1" =
      .error ⟨403, "CHEF_CHANTIER cannot create unavailabilities (MVP)"⟩
    ∧ create_unavail dbSample uSal
      [("employee_id", Value.s "e1"), ("type", Value.s "CONGE"),
       ("start_date", Value.s "2024-02-01"), ("end_date", Value.s "2024-02-02"),
       ("impact", Value.s "TOTAL"), ("status", Value.s "VALIDE")] "n2" =
      .error ⟨403, "SALARIE can only create BROUILLON/SOUMIS"⟩
    ∧ create_unavail dbSample uResp
      [("employee_id", Value.s "e1"), ("type", Value.s "CONGE"),
       ("start_date", Value.s "2024-02-01"), ("end_date", Value.s "2024-02-02"),
       ("impact", Value.s "TOTAL"), ("status", Value.s "BROUILLON")] "n3" =
      .ok ("n3", { dbSample with unavailabilities := dbSample.unavailabilities ++
        [insertedUnavail uResp
          [("employee_id", Value.s "e1"), ("type", Value.s "CONGE"),
           ("start_date", Value.s "2024-02-01"), ("end_date", Value.s "2024-02-02"),
           ("impact", Value.s "TOTAL"), ("status", Value.s "BROUILLON")] "n3"] }) :=
  ⟨(unavail_create_policy dbSample uChef
      [("employee_id", Value.s "e1"), ("type", Value.s "CONGE"),
       ("start_date", Value.s "2024-02-01"), ("end_date", Value.s "2024-02-02"),
       ("impact", Value.s "TOTAL"), ("status", Value.s "BROUILLON")] "n1"
      (by decide)).1 rfl,
   ((unavail_create_policy dbSample uSal
      [("employee_id", Value.s "e1"), ("type", Value.s "CONGE"),
       ("start_date", Value.s "2024-02-01"), ("end_date", Value.s "2024-02-02"),
       ("impact", Value.s "TOTAL"), ("status", Value.s "VALIDE")] "n2"
      (by decide)).2.1 rfl).2.1 rfl rfl rfl,
   (unavail_create_policy dbSample uResp
      [("employee_id", Value.s "e1"), ("type", Value.s "CONGE"),
       ("start_date", Value.s "2024-02-01"), ("end_date", Value.s "2024-02-02"),
       ("impact", Value.s "TOTAL"), ("status", Value.s "BROUILLON")] "n3"
      (by decide)).2.2 rfl⟩

/-- C2: every list operation invoked by a SALARIE returns only rows whose
employee id (for employees, the row id) equals the caller's linked
employee id, and an unlinked SALARIE gets the empty list from all three —
never an error, never another employee's row. -/
theorem salarie_list_ownership (db : DB) (u : User) (act df dt : Option String)
    (hrole : u.role = "SALARIE") :
    (isBlank u.employee_id = true →
      list_employees db u = [] ∧ list_assignments db act df dt u = []
      ∧ list_unavail db df dt u = [])
    ∧ (∀ eid, u.employee_id = some eid → eid ≠ "" →
      (∀ r ∈ list_employees db u, r.id = eid)
      ∧ (∀ r ∈ list_assignments db act df dt u, r.employee_id = eid)
      ∧ (∀ r ∈ list_unavail db df dt u, r.employee_id = eid)) := by
  have hno : ¬ (u.role = "CHEF_CHANTIER" ∨ u.role = "RESPONSABLE") := by
    rw [hrole]; decide
  constructor
  · intro hblank
    cases he : u.employee_id with
    | none => refine ⟨?_, ?_, ?_⟩ <;>
        simp [list_employees, list_assignments, list_unavail, hno, hrole, he]
    | some s =>
      have hs : s = "" := by
        rw [he] at hblank; simpa [isBlank] using hblank
      refine ⟨?_, ?_, ?_⟩ <;>
        simp [list_employees, list_assignments, list_unavail, hno, hrole, he, hs]
  · intro eid heid hne
    refine ⟨?_, ?_, ?_⟩
    · intro r hr
      simp only [list_employees, hno, if_false, heid, hne, ite_false] at hr
      cases hh : (db.employees.filter (fun e => e.id == eid)).head? with
      | none => rw [hh] at hr; cases hr
      | some row =>
        rw [hh] at hr
        have hrm : row ∈ db.employees.filter (fun e => e.id == eid) :=
          List.mem_of_mem_head? (by rw [hh]; exact rfl)
        have hpred := (List.mem_filter.mp hrm).2
        rcases List.mem_singleton.mp hr with rfl
        exact beq_iff_eq.mp hpred
    · intro r hr
      simp only [list_assignments, hrole, if_true, heid, hne, ite_false] at hr
      simp only [joinAssignments, List.mem_flatMap, List.mem_filter, List.mem_map] at hr
      obtain ⟨a, ⟨_, hpred⟩, e, _, rfl⟩ := hr
      exact beq_iff_eq.mp (Bool.and_elim_right hpred)
    · intro r hr
      simp only [list_unavail, hrole, if_true, heid, hne, ite_false] at hr
      simp only [joinUnavail, List.mem_flatMap, List.mem_filter, List.mem_map] at hr
      obtain ⟨v, ⟨_, hpred⟩, e, _, rfl⟩ := hr
      exact beq_iff_eq.mp (Bool.and_elim_right hpred)

/-- Witness for C2: the unlinked SALARIE gets three empty lists; the
linked one only sees rows for employee `e1`. -/
theorem salarie_list_ownership_witness :
    (list_employees dbSample uSalNoEmp = []
      ∧ list_assignments dbSample none none none uSalNoEmp = []
      ∧ list_unavail dbSample none none uSalNoEmp = [])
    ∧ empInactive.id = "e1" :=
  ⟨(salarie_list_ownership dbSample uSalNoEmp none none none rfl).1 rfl,
   ((salarie_list_ownership dbSample uSal none none none rfl).2 "e1" rfl
      (by decide)).1 empInactive (by decide)⟩

/-- A key that `lookup` misses heads no pair of the association list. -/
theorem lookup_none_keys {β : Type} (l : List (String × β)) (k : String)
    (h : l.lookup k = none) : ∀ p ∈ l, p.1 ≠ k := by
  induction l with
  | nil => intro p hp; cases hp
  | cons q t ih =>
    obtain ⟨qk, qv⟩ := q
    intro p hp
    by_cases hk : k = qk
    · subst hk; simp [List.lookup] at h
    · have hkb : (k == qk) = false := beq_eq_false_iff_ne.mpr hk
      rw [List.lookup, hkb] at h
      rcases List.mem_cons.mp hp with rfl | hmem
      · exact fun hc => hk hc.symm
      · exact ih h p hmem

/-- A key heading no pair of the association list is missed by `lookup`. -/
theorem keys_none_lookup {β : Type} (l : List (String × β)) (k : String)
    (h : ∀ p ∈ l, p.1 ≠ k) : l.lookup k = none := by
  induction l with
  | nil => rfl
  | cons q t ih =>
    obtain ⟨qk, qv⟩ := q
    have hqk : qk ≠ k := h (qk, qv) (List.mem_cons_self _ _)
    have hkb : (k == qk) = false := beq_eq_false_iff_ne.mpr (fun hc => hqk hc.symm)
    rw [List.lookup, hkb]
    exact ih (fun p hp => h p (List.mem_cons_of_mem _ hp))

/-- `applyField` never touches the id column. -/
theorem applyField_keep_id (a : Assignment) (k : String) (v : Value) :
    (applyField a k v).id = a.id := by
  unfold applyField; split_ifs <;> rfl

/-- `applyField` never touches the employee id column. -/
theorem applyField_keep_employee_id (a : Assignment) (k : String) (v : Value) :
    (applyField a k v).employee_id = a.employee_id := by
  unfold applyField; split_ifs <;> rfl

/-- `applyField` never touches the created-by column. -/
theorem applyField_keep_created_by (a : Assignment) (k : String) (v : Value) :
    (applyField a k v).created_by = a.created_by := by
  unfold applyField; split_ifs <;> rfl

/-- `applyField` only changes the activity column under its own key. -/
theorem applyField_keep_activity (a : Assignment) (k : String) (v : Value)
    (h : k ≠ "activity") : (applyField a k v).activity = a.activity := by
  unfold applyField
  split_ifs with h1 h2 h3 h4 h5 h6 <;> first | rfl | exact absurd h1 h

/-- `applyField` only changes the date column under its own key. -/
theorem applyField_keep_assign_date (a : Assignment) (k : String) (v : Value)
    (h : k ≠ "assign_date") : (applyField a k v).assign_date = a.assign_date := by
  unfold applyField
  split_ifs with h1 h2 h3 h4 h5 h6 <;> first | rfl | exact absurd h2 h

/-- `applyField` only changes the role column under its own key. -/
theorem applyField_keep_role (a : Assignment) (k : String) (v : Value)
    (h : k ≠ "role") : (applyField a k v).role = a.role := by
  unfold applyField
  split_ifs with h1 h2 h3 h4 h5 h6 <;> first | rfl | exact absurd h3 h

/-- `applyField` only changes the shift column under its own key. -/
theorem applyField_keep_shift (a : Assignment) (k : String) (v : Value)
    (h : k ≠ "shift") : (applyField a k v).shift = a.shift := by
  unfold applyField
  split_ifs with h1 h2 h3 h4 h5 h6 <;> first | rfl | exact absurd h4 h

/-- `applyField` only changes the provisional flag under its own key. -/
theorem applyField_keep_is_pf (a : Assignment) (k : String) (v : Value)
    (h : k ≠ "is_pf") : (applyField a k v).is_pf = a.is_pf := by
  unfold applyField
  split_ifs with h1 h2 h3 h4 h5 h6 <;> first | rfl | exact absurd h5 h

/-- `applyField` only changes the status column under its own key. -/
theorem applyField_keep_status (a : Assignment) (k : String) (v : Value)
    (h : k ≠ "status") : (applyField a k v).status = a.status := by
  unfold applyField
  split_ifs with h1 h2 h3 h4 h5 h6 <;> first | rfl | exact absurd h6 h

/-- The field fold never touches the id column. -/
theorem applyFields_keep_id (sets : Payload) (a : Assignment) :
    (applyFields sets a).id = a.id := by
  induction sets generalizing a with
  | nil => rfl
  | cons p t ih =>
    show (applyFields t (applyField a p.1 p.2)).id = a.id
    rw [ih, applyField_keep_id]

/-- The field fold never touches the employee id column. -/
theorem applyFields_keep_employee_id (sets : Payload) (a : Assignment) :
    (applyFields sets a).employee_id = a.employee_id := by
  induction sets generalizing a with
  | nil => rfl
  | cons p t ih =>
    show (applyFields t (applyField a p.1 p.2)).employee_id = a.employee_id
    rw [ih, applyField_keep_employee_id]

/-- The field fold never touches the created-by column. -/
theorem applyFields_keep_created_by (sets : Payload) (a : Assignment) :
    (applyFields sets a).created_by = a.created_by := by
  induction sets generalizing a with
  | nil => rfl
  | cons p t ih =>
    show (applyFields t (applyField a p.1 p.2)).created_by = a.created_by
    rw [ih, applyField_keep_created_by]

/-- The field fold keeps the activity column when its key is absent. -/
theorem applyFields_keep_activity (sets : Payload) (a : Assignment)
    (h : ∀ p ∈ sets, p.1 ≠ "activity") :
    (applyFields sets a).activity = a.activity := by
  revert h
  induction sets generalizing a with
  | nil => intro h; rfl
  | cons p t ih =>
    intro h
    show (applyFields t (applyField a p.1 p.2)).activity = a.activity
    rw [ih _ (fun q hq => h q (List.mem_cons_of_mem _ hq)),
      applyField_keep_activity _ _ _ (h p (List.mem_cons_self _ _))]

/-- The field fold keeps the date column when its key is absent. -/
theorem applyFields_keep_assign_date (sets : Payload) (a : Assignment)
    (h : ∀ p ∈ sets, p.1 ≠ "assign_date") :
    (applyFields sets a).assign_date = a.assign_date := by
  revert h
  induction sets generalizing a with
  | nil => intro h; rfl
  | cons p t ih =>
    intro h
    show (applyFields t (applyField a p.1 p.2)).assign_date = a.assign_date
    rw [ih _ (fun q hq => h q (List.mem_cons_of_mem _ hq)),
      applyField_keep_assign_date _ _ _ (h p (List.mem_cons_self _ _))]

/-- The field fold keeps the role column when its key is absent. -/
theorem applyFields_keep_role (sets : Payload) (a : Assignment)
    (h : ∀ p ∈ sets, p.1 ≠ "role") :
    (applyFields sets a).role = a.role := by
  revert h
  induction sets generalizing a with
  | nil => intro h; rfl
  | cons p t ih =>
    intro h
    show (applyFields t (applyField a p.1 p.2)).role = a.role
    rw [ih _ (fun q hq => h q (List.mem_cons_of_mem _ hq)),
      applyField_keep_role _ _ _ (h p (List.mem_cons_self _ _))]

/-- The field fold keeps the shift column when its key is absent. -/
theorem applyFields_keep_shift (sets : Payload) (a : Assignment)
    (h : ∀ p ∈ sets, p.1 ≠ "shift") :
    (applyFields sets a).shift = a.shift := by
  revert h
  induction sets generalizing a with
  | nil => intro h; rfl
  | cons p t ih =>
    intro h
    show (applyFields t (applyField a p.1 p.2)).shift = a.shift
    rw [ih _ (fun q hq => h q (List.mem_cons_of_mem _ hq)),
      applyField_keep_shift _ _ _ (h p (List.mem_cons_self _ _))]

/-- The field fold keeps the provisional flag when its key is absent. -/
theorem applyFields_keep_is_pf (sets : Payload) (a : Assignment)
    (h : ∀ p ∈ sets, p.1 ≠ "is_pf") :
    (applyFields sets a).is_pf = a.is_pf := by
  revert h
  induction sets generalizing a with
  | nil => intro h; rfl
  | cons p t ih =>
    intro h
    show (applyFields t (applyField a p.1 p.2)).is_pf = a.is_pf
    rw [ih _ (fun q hq => h q (List.mem_cons_of_mem _ hq)),
      applyField_keep_is_pf _ _ _ (h p (List.mem_cons_self _ _))]

/-- The field fold keeps the status column when its key is absent. -/
theorem applyFields_keep_status (sets : Payload) (a : Assignment)
    (h : ∀ p ∈ sets, p.1 ≠ "status") :
    (applyFields sets a).status = a.status := by
  revert h
  induction sets generalizing a with
  | nil => intro h; rfl
  | cons p t ih =>
    intro h
    show (applyFields t (applyField a p.1 p.2)).status = a.status
    rw [ih _ (fun q hq => h q (List.mem_cons_of_mem _ hq)),
      applyField_keep_status _ _ _ (h p (List.mem_cons_self _ _))]

/-- C5: the assignment update honors exactly the allow-listed fields: an
unrecognized payload entry changes nothing about the outcome (no error,
no column change); every successful update leaves the other tables, the
rows with other ids, the identity columns, and every allow-listed column
whose key the payload omits untouched; and a payload with zero
recognized fields returns `{"ok": true, "updated": 0}` without touching
the store. -/
theorem update_assignment_field_allowlist (db : DB) (u : User) (aid : String)
    (payload : Payload) :
    (∀ k v, allowedFields.contains k = false →
      update_assignment db u aid ((k, v) :: payload) = update_assignment db u aid payload)
    ∧ (∀ resp db', update_assignment db u aid payload = .ok (resp, db') →
      db'.employees = db.employees ∧ db'.unavailabilities = db.unavailabilities
      ∧ (∀ a ∈ db.assignments, a.id ≠ aid → a ∈ db'.assignments)
      ∧ (∀ a' ∈ db'.assignments, ∃ a, a ∈ db.assignments
          ∧ a'.id = a.id ∧ a'.employee_id = a.employee_id ∧ a'.created_by = a.created_by
          ∧ (payload.lookup "activity" = none → a'.activity = a.activity)
          ∧ (payload.lookup "assign_date" = none → a'.assign_date = a.assign_date)
          ∧ (payload.lookup "role" = none → a'.role = a.role)
          ∧ (payload.lookup "shift" = none → a'.shift = a.shift)
          ∧ (payload.lookup "is_pf" = none → a'.is_pf = a.is_pf)
          ∧ (payload.lookup "status" = none → a'.status = a.status)))
    ∧ ((∀ p ∈ payload, allowedFields.contains p.1 = false) →
      ∀ a, db.assignments.find? (fun x => x.id == aid) = some a →
      (u.role = "CHEF_CHANTIER" ∨ u.role = "RESPONSABLE") →
      (u.role = "CHEF_CHANTIER" → a.status = "BROUILLON" ∨ a.status = "SOUMIS") →
      update_assignment db u aid payload = .ok (⟨true, 0⟩, db)) := by
  refine ⟨?_, ?_, ?_⟩
  · intro k v hk
    have hkne : ("status" == k) = false := by
      refine beq_eq_false_iff_ne.mpr (fun hc => ?_)
      rw [← hc] at hk
      simp [allowedFields] at hk
    have hlook : List.lookup "status" ((k, v) :: payload) = List.lookup "status" payload := by
      rw [List.lookup, hkne]
    have hk' : k ∉ allowedFields := by simpa using hk
    have hfilt : ((k, v) :: payload).filter (fun kv => allowedFields.contains kv.1) =
        payload.filter (fun kv => allowedFields.contains kv.1) := by
      rw [List.filter_cons]
      simp [hk']
    simp only [update_assignment, hlook, hfilt]
  · intro resp db' h
    simp only [update_assignment] at h
    split at h
    · exact Except.noConfusion h
    · split at h
      · exact Except.noConfusion h
      · split at h
        · exact Except.noConfusion h
        · split at h
          · exact Except.noConfusion h
          · split at h
            · injection h with hpair
              injection hpair with h1 h2
              subst h2
              refine ⟨rfl, rfl, fun a ha _ => ha, fun a' ha' => ⟨a', ha', rfl, rfl, rfl,
                fun _ => rfl, fun _ => rfl, fun _ => rfl, fun _ => rfl, fun _ => rfl,
                fun _ => rfl⟩⟩
            · injection h with hpair
              injection hpair with h1 h2
              subst h2
              refine ⟨rfl, rfl, ?_, ?_⟩
              · intro a ha hne
                have hid : (a.id == aid) = false := beq_eq_false_iff_ne.mpr hne
                have hfa : (if a.id == aid then
                    applyFields (payload.filter (fun kv => allowedFields.contains kv.1)) a
                    else a) = a := by
                  rw [if_neg]
                  simp [hid]
                exact hfa ▸ List.mem_map_of_mem _ ha
              · intro a' ha'
                rw [List.mem_map] at ha'
                obtain ⟨a, ha, hfa⟩ := ha'
                by_cases hid : (a.id == aid) = true
                · rw [if_pos hid] at hfa
                  subst hfa
                  refine ⟨a, ha, applyFields_keep_id _ _, applyFields_keep_employee_id _ _,
                    applyFields_keep_created_by _ _, ?_, ?_, ?_, ?_, ?_, ?_⟩
                  · intro hlk
                    exact applyFields_keep_activity _ _ (fun p hp =>
                      lookup_none_keys payload _ hlk p (List.mem_of_mem_filter hp))
                  · intro hlk
                    exact applyFields_keep_assign_date _ _ (fun p hp =>
                      lookup_none_keys payload _ hlk p (List.mem_of_mem_filter hp))
                  · intro hlk
                    exact applyFields_keep_role _ _ (fun p hp =>
                      lookup_none_keys payload _ hlk p (List.mem_of_mem_filter hp))
                  · intro hlk
                    exact applyFields_keep_shift _ _ (fun p hp =>
                      lookup_none_keys payload _ hlk p (List.mem_of_mem_filter hp))
                  · intro hlk
                    exact applyFields_keep_is_pf _ _ (fun p hp =>
                      lookup_none_keys payload _ hlk p (List.mem_of_mem_filter hp))
                  · intro hlk
                    exact applyFields_keep_status _ _ (fun p hp =>
                      lookup_none_keys payload _ hlk p (List.mem_of_mem_filter hp))
                · rw [if_neg hid] at hfa
                  subst hfa
                  exact ⟨a, ha, rfl, rfl, rfl, fun _ => rfl, fun _ => rfl, fun _ => rfl,
                    fun _ => rfl, fun _ => rfl, fun _ => rfl⟩
  · intro hnone a hf hroles hchef
    have hsets : payload.filter (fun kv => allowedFields.contains kv.1) = [] := by
      rw [List.filter_eq_nil_iff]
      intro p hp
      simpa using hnone p hp
    have hlst : payload.lookup "status" = none := by
      refine keys_none_lookup payload "status" (fun p hp hc => ?_)
      have := hnone p hp
      rw [hc] at this
      simp [allowedFields] at this
    rcases hroles with hch | hrs
    · rcases hchef hch with hb | hs2
      · simp [update_assignment, require_roles, hch, hf, hb, hlst, hsets]
        intro x xv hmem hx
        exact absurd hx (by simpa using hnone (x, xv) hmem)
      · simp [update_assignment, require_roles, hch, hf, hs2, hlst, hsets]
        intro x xv hmem hx
        exact absurd hx (by simpa using hnone (x, xv) hmem)
    · have hnc : ¬ u.role = "CHEF_CHANTIER" := by rw [hrs]; decide
      simp [update_assignment, require_roles, hrs, hnc, hf, hlst, hsets]
      intro x xv hmem hx
      exact absurd hx (by simpa using hnone (x, xv) hmem)

/-- Witness for C5: on the sample store under RESPONSABLE, adding an
unrecognized field changes nothing, a junk-only payload yields
`updated: 0` with the store intact, and a real update leaves the
employees table untouched. -/
theorem update_assignment_field_allowlist_witness :
    update_assignment dbSample uResp "a1" [("junk", Value.s "x")] =
      update_assignment dbSample uResp "a1" []
    ∧ update_assignment dbSample uResp "a1" [("junk", Value.s "x")] =
      .ok (⟨true, 0⟩, dbSample)
    ∧ dbSampleUpd.employees = dbSample.employees :=
  ⟨(update_assignment_field_allowlist dbSample uResp "a1" []).1 "junk" (Value.s "x") rfl,
   (update_assignment_field_allowlist dbSample uResp "a1" [("junk", Value.s "x")]).2.2
      (by decide) asgValide rfl (Or.inr rfl) (fun hc => absurd hc (by decide)),
   ((update_assignment_field_allowlist dbSample uResp "a1"
      [("activity", Value.s "X")]).2.1 ⟨true, 1⟩ dbSampleUpd (by rfl)).1⟩

end Planning
